import Mathlib

/-!
Verification of the conversational agent backend (Cloudflare agents workspace).

The definitions below are a shallow embedding of the TypeScript source:
- `DbOperations` methods from `apps/backend/src/db/operations.ts`
  (integration connect/disconnect, message retrieval, retry loops),
- the tool capability resolver from `apps/backend/src/tools/index.ts`,
- the `RouterAgent` lifecycle handlers from `apps/backend/src/server.ts`
  (restore, chat-turn persistence gating, close),
- the `DatabaseManager` from `apps/backend/src/db/index.ts`,
- the HTTP handlers for `/api/integrations/...` from the worker fetch handler.

Database tables are modelled as Lean lists of row structures kept in insertion
order; `new Date()` timestamps are modelled as `Nat` values supplied by the
caller (the call sites in the source always take a fresh, larger timestamp).
Row ids generated by the database (uuid defaults) are irrelevant to every claim
about row counts and field values and are modelled only where the source reads
them back (message ids used during restore).
-/

/-- Row of the `integration_connections` table (schema.ts).  The uuid primary
key and the `credentials` column are never read by the operations under
verification and are omitted; all other columns are modelled.  `metadata` is an
opaque payload, modelled as `Option String`. -/
structure IntegrationConnection where
  sessionId : String
  integrationName : String
  status : String
  metadata : Option String
  lastSyncAt : Option Nat
  createdAt : Nat
  updatedAt : Nat
deriving DecidableEq

/-- The `integration_connections` table, rows in insertion order. -/
abbrev IntegrationTable := List IntegrationConnection

namespace DbOperations

/-- `getIntegrationConnection`: select rows where sessionId and
integrationName match, limit 1 (operations.ts lines 211-222). -/
def getIntegrationConnection (table : IntegrationTable)
    (sessionId integrationName : String) : List IntegrationConnection :=
  (table.filter (fun r =>
    r.sessionId == sessionId && r.integrationName == integrationName)).take 1

/-- `saveIntegrationConnection`: insert the row, returning it
(operations.ts lines 204-209). -/
def saveIntegrationConnection (table : IntegrationTable)
    (row : IntegrationConnection) : IntegrationTable × List IntegrationConnection :=
  (table ++ [row], [row])

/-- The partial update record passed to `updateIntegrationConnection`
(`Partial<NewIntegrationConnection>` restricted to the fields the call sites
set). -/
structure IntegrationUpdate where
  status : Option String := none
  lastSyncAt : Option (Option Nat) := none
  metadata : Option (Option String) := none

/-- Apply a partial update to one row; `updatedAt` is always refreshed to the
current time, mirroring `set({...updates, updatedAt: new Date()})`. -/
def applyIntegrationUpdate (u : IntegrationUpdate) (now : Nat)
    (r : IntegrationConnection) : IntegrationConnection :=
  { r with
    status := u.status.getD r.status
    lastSyncAt := u.lastSyncAt.getD r.lastSyncAt
    metadata := u.metadata.getD r.metadata
    updatedAt := now }

/-- `updateIntegrationConnection`: update every row matching (sessionId,
integrationName), returning the updated rows (operations.ts lines 232-250). -/
def updateIntegrationConnection (table : IntegrationTable)
    (sessionId integrationName : String) (u : IntegrationUpdate) (now : Nat) :
    IntegrationTable × List IntegrationConnection :=
  let sameKey := fun (r : IntegrationConnection) =>
    r.sessionId == sessionId && r.integrationName == integrationName
  ((table.map (fun r => if sameKey r then applyIntegrationUpdate u now r else r)),
   (table.filter sameKey).map (applyIntegrationUpdate u now))

/-- `connectIntegration`: look up an existing (sessionId, integrationName) row;
if present, update it to status connected with a fresh `lastSyncAt`, otherwise
insert a new connected row (operations.ts lines 252-283).  `now` models the
`new Date()` taken during the call; the inserted row's `createdAt`/`updatedAt`
are the database defaults `now()`. -/
def connectIntegration (table : IntegrationTable)
    (sessionId integrationName : String) (metadata : Option String) (now : Nat) :
    IntegrationTable × List IntegrationConnection :=
  match getIntegrationConnection table sessionId integrationName with
  | _existing :: _ =>
      updateIntegrationConnection table sessionId integrationName
        { status := some "connected", lastSyncAt := some (some now),
          metadata := some metadata } now
  | [] =>
      saveIntegrationConnection table
        { sessionId := sessionId, integrationName := integrationName,
          status := "connected", metadata := metadata, lastSyncAt := some now,
          createdAt := now, updatedAt := now }

/-- `disconnectIntegration`: update every row matching (sessionId,
integrationName) to status disconnected, returning the updated rows; with no
matching row this updates nothing and returns the empty list
(operations.ts lines 285-299). -/
def disconnectIntegration (table : IntegrationTable)
    (sessionId integrationName : String) (now : Nat) :
    IntegrationTable × List IntegrationConnection :=
  let sameKey := fun (r : IntegrationConnection) =>
    r.sessionId == sessionId && r.integrationName == integrationName
  ((table.map (fun r =>
      if sameKey r then { r with status := "disconnected", updatedAt := now } else r)),
   (table.filter sameKey).map (fun r =>
      { r with status := "disconnected", updatedAt := now }))

end DbOperations

/-- Rows of a table that belong to the (sessionId, integrationName) pair. -/
def pairRows (table : IntegrationTable) (sessionId integrationName : String) :
    List IntegrationConnection :=
  table.filter (fun r =>
    r.sessionId == sessionId && r.integrationName == integrationName)

/-- Row of the `messages` table (schema.ts).  `metadata` carries the auxiliary
JSON the call sites attach; its contents are opaque to every claim and it is
modelled as `Option String`. -/
structure MessageRow where
  id : String
  agentType : String
  sessionId : String
  role : String
  content : String
  metadata : Option String
  createdAt : Nat
deriving DecidableEq

/-- The `messages` table, rows in insertion order; `saveMessage` appends with
`createdAt := new Date()`, so insertion order is chronological order. -/
abbrev MessageTable := List MessageRow

/-- Classified database error carrying the `code`/`errno` fields the retry
logic inspects. -/
structure DbError where
  code : Option String
  errno : Option String
deriving DecidableEq

/-- The retryability predicate of the retry loops: the error is a transient
connection loss, `error?.code === "CONNECTION_ENDED" || error?.errno ===
"CONNECTION_ENDED"` (operations.ts lines 49-53, 127-131). -/
def isConnectionEnded (e : DbError) : Bool :=
  e.code == some "CONNECTION_ENDED" || e.errno == some "CONNECTION_ENDED"

namespace DbOperations

/-- `const maxRetries = 2` shared by every retry loop in operations.ts. -/
def maxRetries : Nat := 2

/-- Observable trace of one retried storage call: its terminal outcome, how
many attempts were issued, and the inter-attempt delays (in milliseconds)
actually slept. -/
structure RetryTrace (α : Type) where
  result : α
  attemptsMade : Nat
  delays : List Nat
deriving DecidableEq

/-- The `for (attempt = 1; attempt <= maxRetries; attempt++)` loop of
`createSession` (operations.ts lines 24-65), parameterised by an oracle giving
each attempt's outcome.  A successful attempt returns the record; a failing
attempt retries after `100 * attempt` ms when it is transient and retries
remain, and otherwise terminates with the null sentinel (`none`).  Falling out
of the loop returns the final `return null`. -/
def createSessionLoop {α : Type} (oracle : Nat → Except DbError α)
    (attempt : Nat) : RetryTrace (Option α) :=
  if h : maxRetries < attempt then ⟨none, 0, []⟩
  else
    match oracle attempt with
    | .ok a => ⟨some a, 1, []⟩
    | .error e =>
        if attempt < maxRetries && isConnectionEnded e then
          let t := createSessionLoop oracle (attempt + 1)
          ⟨t.result, t.attemptsMade + 1, 100 * attempt :: t.delays⟩
        else ⟨none, 1, []⟩
termination_by maxRetries + 1 - attempt
decreasing_by
  simp only [not_lt] at h
  omega

/-- `createSession` enters its retry loop at attempt 1 (operations.ts lines
20-65).  The σ value models the session record a successful insert returns. -/
def createSession {α : Type} (oracle : Nat → Except DbError α) :
    RetryTrace (Option α) :=
  createSessionLoop oracle 1

/-- The retry loop of `getAgentMessages` (operations.ts lines 109-142): same
loop bounds and retryability test as `createSession`, but the terminal
behavior on a non-retried failure is `throw error`, and falling out of the
loop returns the fallback empty array. -/
def getAgentMessagesLoop {α : Type} (oracle : Nat → Except DbError (List α))
    (attempt : Nat) : RetryTrace (Except DbError (List α)) :=
  if h : maxRetries < attempt then ⟨.ok [], 0, []⟩
  else
    match oracle attempt with
    | .ok v => ⟨.ok v, 1, []⟩
    | .error e =>
        if attempt < maxRetries && isConnectionEnded e then
          let t := getAgentMessagesLoop oracle (attempt + 1)
          ⟨t.result, t.attemptsMade + 1, 100 * attempt :: t.delays⟩
        else ⟨.error e, 1, []⟩
termination_by maxRetries + 1 - attempt
decreasing_by
  simp only [not_lt] at h
  omega

/-- `getAgentMessages` enters its retry loop at attempt 1. -/
def getAgentMessagesRun {α : Type} (oracle : Nat → Except DbError (List α)) :
    RetryTrace (Except DbError (List α)) :=
  getAgentMessagesLoop oracle 1

/-- Recency-descending comparison used by `orderBy: [desc(messages.createdAt)]`. -/
def recencyDesc (a b : MessageRow) : Prop :=
  b.createdAt ≤ a.createdAt

instance : DecidableRel recencyDesc := fun a b =>
  inferInstanceAs (Decidable (b.createdAt ≤ a.createdAt))

/-- The query a successful `getAgentMessages(agentType, limit)` attempt runs
(operations.ts lines 115-119): rows of the `messages` table with the given
`agentType`, ordered by `createdAt` descending, limited to `limit` rows. -/
def agentMessagesQuery (table : MessageTable) (agentType : String)
    (limit : Nat) : List MessageRow :=
  ((table.filter (fun m => m.agentType == agentType)).insertionSort
    recencyDesc).take limit

/-- `saveMessage` (operations.ts lines 86-100): append the row with
`createdAt := new Date()`; the row's database-generated id is supplied by the
caller of the model. -/
def saveMessage (table : MessageTable) (row : MessageRow) : MessageTable :=
  table ++ [row]

end DbOperations

/-- In-memory chat transcript entry of the `AIChatAgent` (`this.messages`). -/
structure ChatMessage where
  role : String
  content : String
  id : String
deriving DecidableEq

/-- Convert a database message row to the AI SDK transcript shape pushed by
`restoreConversationHistory` (server.ts lines 592-598). -/
def toChatMessage (m : MessageRow) : ChatMessage :=
  ⟨m.role, m.content, m.id⟩

/-- The `DatabaseManager` connection state (db/index.ts): whether the postgres
connection handle `this.conn` is currently set. -/
structure DatabaseManager where
  conn : Bool
deriving DecidableEq

/-- `DatabaseManager.close` (db/index.ts lines 49-61): if a connection handle
is present, end it (releasing the single pooled connection) and clear the
handle; otherwise do nothing.  The returned number counts how many times the
underlying connection was released by this call. -/
def DatabaseManager.close (m : DatabaseManager) : DatabaseManager × Nat :=
  if m.conn then ({ conn := false }, 1) else (m, 0)

namespace RouterAgent

/-- The inbound-message save at the top of `RouterAgent.onChatMessage`
(server.ts lines 686-709): the last transcript entry is saved as a user row
only when a database handle and session id are present, the entry's role is
`user`, and `this.messages.length > 10`.  `hasDbOps` models `this.dbOps` being
non-null; the session id is truthy when non-empty.  `rowId`/`meta` model the
database-generated id and the metadata JSON attached at the call site. -/
def saveUserMessageOnTurn (hasDbOps : Bool) (sessionId : String)
    (msgs : List ChatMessage) (store : MessageTable)
    (rowId : String) (meta : Option String) (now : Nat) : MessageTable :=
  match msgs.getLast? with
  | none => store
  | some userMessage =>
      if hasDbOps && !sessionId.isEmpty && userMessage.role == "user"
          && decide (msgs.length > 10) then
        DbOperations.saveMessage store
          { id := rowId, agentType := "router-agent", sessionId := sessionId,
            role := "user", content := userMessage.content, metadata := meta,
            createdAt := now }
      else store

/-- The assistant-reply save inside the `onFinish` callback of
`RouterAgent.onChatMessage` (server.ts lines 737-766): the reply text is saved
as an assistant row only when a database handle and session id are present and
`this.messages.length > 10`. -/
def saveAssistantReplyOnFinish (hasDbOps : Bool) (sessionId : String)
    (msgs : List ChatMessage) (store : MessageTable) (replyText : String)
    (rowId : String) (meta : Option String) (now : Nat) : MessageTable :=
  if hasDbOps && !sessionId.isEmpty && decide (msgs.length > 10) then
    DbOperations.saveMessage store
      { id := rowId, agentType := "router-agent", sessionId := sessionId,
        role := "assistant", content := replyText, metadata := meta,
        createdAt := now }
  else store

/-- The system-role error record written in the catch branch of
`RouterAgent.onChatMessage` (server.ts lines 778-797): gated by the same
`this.dbOps && this.sessionId && this.messages.length > 10` condition. -/
def saveErrorRecordOnCatch (hasDbOps : Bool) (sessionId : String)
    (msgs : List ChatMessage) (store : MessageTable) (errText : String)
    (rowId : String) (meta : Option String) (now : Nat) : MessageTable :=
  if hasDbOps && !sessionId.isEmpty && decide (msgs.length > 10) then
    DbOperations.saveMessage store
      { id := rowId, agentType := "router-agent", sessionId := sessionId,
        role := "system", content := "Error processing message: " ++ errText,
        metadata := meta, createdAt := now }
  else store

/-- `RouterAgent.restoreConversationHistory` (server.ts lines 570-614).
`fetch` is the outcome of the `getAgentMessages("router-agent", 50)` call.
When it succeeds with at least one row, the rows are reversed to chronological
order and pushed onto a cleared transcript; when it succeeds empty, the
transcript is untouched; when it fails, the catch branch logs and continues
with the transcript untouched.  The returned flag records whether the failure
log line was emitted. -/
def restoreConversationHistory (hasDbOps : Bool) (sessionId : String)
    (fetch : Except DbError (List MessageRow))
    (messages : List ChatMessage) : List ChatMessage × Bool :=
  if !hasDbOps || sessionId.isEmpty then (messages, false)
  else
    match fetch with
    | .error _ => (messages, true)
    | .ok savedMessages =>
        if savedMessages.length > 0 then
          ((savedMessages.reverse).map toChatMessage, false)
        else (messages, false)

/-- `RouterAgent.onClose` (server.ts lines 642-680): when a database handle, a
session id and a non-empty transcript are present, every transcript entry is
saved (no threshold test), then the `DatabaseManager` is closed when present.
`rowIds` supplies the database-generated id of each inserted row and `meta`
the `savedOnClose` metadata JSON.  The returned number counts connection
releases performed by this call. -/
def onClose (hasDbOps : Bool) (sessionId : String) (msgs : List ChatMessage)
    (store : MessageTable) (mgr : Option DatabaseManager)
    (rowIds : Nat → String) (meta : Option String) (now : Nat) :
    MessageTable × Option DatabaseManager × Nat :=
  let store2 :=
    if hasDbOps && !sessionId.isEmpty && decide (msgs.length > 0) then
      msgs.enum.foldl
        (fun acc p =>
          DbOperations.saveMessage acc
            { id := rowIds p.1, agentType := "router-agent",
              sessionId := sessionId, role := p.2.role,
              content := p.2.content, metadata := meta, createdAt := now })
        store
    else store
  match mgr with
  | none => (store2, none, 0)
  | some m =>
      let (m2, released) := m.close
      (store2, some m2, released)

end RouterAgent

/-- The static `integrations` metadata record of tools/index.ts (lines 7-56),
mapping each integration key to its declared tool-name list. -/
def integrationsMeta : List (String × List String) :=
  [("google-ads",
     ["getGoogleAdsStats", "getGoogleAdsPaymentInfo", "getGoogleAdsCampaigns",
      "getGoogleAdsKeywords", "getGoogleAdsAudienceInsights",
      "getGoogleAdsCompetitorAnalysis"]),
   ("shopify",
     ["getShopifyStoreStats", "getShopifyInventory", "getShopifyOrders",
      "getShopifyCustomers", "getShopifyProducts", "getShopifyAnalytics"]),
   ("posthog",
     ["getPostHogEvents", "getPostHogFunnelAnalysis", "getPostHogCohortAnalysis",
      "getPostHogUserSegments", "getPostHogFeatureFlags", "getPostHogInsights"])]

/-- The `name` properties carried by the tool objects of `getAllTools()`
(google-ads.ts, shopify.ts, posthog.ts).  The `getGoogleAdsStats` tool object
declares no `name` property in the source, so no entry for it appears here. -/
def allToolNames : List String :=
  ["getGoogleAdsPaymentInfo", "getGoogleAdsCampaigns", "getGoogleAdsKeywords",
   "getGoogleAdsAudienceInsights", "getGoogleAdsCompetitorAnalysis",
   "getShopifyStoreStats", "getShopifyInventory", "getShopifyOrders",
   "getShopifyCustomers", "getShopifyProducts", "getShopifyAnalytics",
   "getPostHogEvents", "getPostHogFunnelAnalysis", "getPostHogCohortAnalysis",
   "getPostHogUserSegments", "getPostHogFeatureFlags", "getPostHogInsights"]

/-- `agentToolMappings` of tools/index.ts (lines 75-78): the static
candidate-integration list per agent type; any other agent type has no entry
(the lookup yields `undefined`). -/
def agentToolMappings (agentType : String) : Option (List String) :=
  (([("auto-agent", ["shopify", "posthog"]),
     ("campaign-agent", ["google-ads", "shopify", "posthog"])] :
      List (String × List String)).lookup agentType)

/-- `getToolsByIntegration` (tools/index.ts lines 81-104): for each tool name
declared by the integration, include it when some tool object in
`getAllTools()` carries that `name` property.  The result is the key list of
the returned record; an unknown integration yields the empty record. -/
def getToolsByIntegration (integrationName : String) : List String :=
  match integrationsMeta.lookup integrationName with
  | none => []
  | some declared => declared.filter (fun t => allToolNames.contains t)

/-- Truthiness of the optional `sessionId` argument: JavaScript treats both a
missing value and the empty string as falsy. -/
def truthySessionId : Option String → Bool
  | none => false
  | some s => !s.isEmpty

/-- A registry handle: the `dbOps.getSessionIntegrations(sessionId)` query,
which may throw. -/
abbrev Registry := String → Except DbError (List IntegrationConnection)

/-- The per-candidate connectivity decision inside the loop of
`getToolsForAgent` (tools/index.ts lines 122-156): with a truthy session id
and a registry handle, query the session's integration rows and report
connected when some row for the integration has status connected; if the query
throws, default to connected; with no session id or no registry handle,
default to connected. -/
def integrationIsConnected (sessionId : Option String) (dbOps : Option Registry)
    (integrationName : String) : Bool :=
  match dbOps with
  | some ops =>
      match sessionId, truthySessionId sessionId with
      | some sid, true =>
          match ops sid with
          | .ok sessionIntegrations =>
              sessionIntegrations.any (fun conn =>
                conn.integrationName == integrationName
                  && conn.status == "connected")
          | .error _ => true
      | _, _ => true
  | none => true

/-- `getToolsForAgent` (tools/index.ts lines 114-179): look up the candidate
integrations for the agent type — an agent type absent from
`agentToolMappings` makes the `for..of` iterate `undefined`, which throws a
TypeError, modelled as `.error ()` — then merge (`Object.assign`) the tool
bundle of every candidate that resolves as connected.  The result models the
key list of the merged record. -/
def getToolsForAgent (agentType : String) (sessionId : Option String)
    (dbOps : Option Registry) : Except Unit (List String) :=
  match agentToolMappings agentType with
  | none => .error ()
  | some integrationNames =>
      .ok (integrationNames.foldl
        (fun agentTools integrationName =>
          if integrationIsConnected sessionId dbOps integrationName then
            agentTools ++ getToolsByIntegration integrationName
          else agentTools)
        [])

/-- The tool-resolution call `RouterAgent.onChatMessage` makes with its own
agent type (server.ts lines 721-726): `getToolsForAgent("router-agent",
this.sessionId, this.dbOps)`. -/
def routerAgentToolResolution (sessionId : Option String)
    (dbOps : Option Registry) : Except Unit (List String) :=
  getToolsForAgent "router-agent" sessionId dbOps

/-- The unknown-name test of the POST/DELETE `/api/integrations/...` handlers:
`!integrationName || !integrations[integrationName]` where `integrationName`
is `url.pathname.split("/").pop()` (server.ts lines 1360-1364, 1443-1447). -/
def integrationNameUnknown (integrationName : String) : Bool :=
  integrationName.isEmpty || (integrationsMeta.lookup integrationName).isNone

/-- The POST `/api/integrations/{name}` handler (server.ts lines 1355-1436):
404 when the trailing path segment names no known integration, else 400 when
the session id is missing, else connect the integration in the database,
answering 200 on success and 500 when the database call throws.  `dbOk` models
whether the `connectIntegration` call succeeds. -/
def postIntegrationHandler (integrationName : String)
    (sessionId : Option String) (dbOk : Bool) : Nat :=
  if integrationNameUnknown integrationName then 404
  else if !truthySessionId sessionId then 400
  else if dbOk then 200 else 500

/-- The DELETE `/api/integrations/{name}` handler (server.ts lines 1438-1516):
identical validation order, disconnecting instead of connecting. -/
def deleteIntegrationHandler (integrationName : String)
    (sessionId : Option String) (dbOk : Bool) : Nat :=
  if integrationNameUnknown integrationName then 404
  else if !truthySessionId sessionId then 400
  else if dbOk then 200 else 500

section IntegrationLemmas

theorem applyIntegrationUpdate_sessionId (u : DbOperations.IntegrationUpdate)
    (now : Nat) (r : IntegrationConnection) :
    (DbOperations.applyIntegrationUpdate u now r).sessionId = r.sessionId := rfl

theorem applyIntegrationUpdate_integrationName
    (u : DbOperations.IntegrationUpdate) (now : Nat)
    (r : IntegrationConnection) :
    (DbOperations.applyIntegrationUpdate u now r).integrationName =
      r.integrationName := rfl

/-- A key-preserving conditional map commutes with selecting the rows of one
(sessionId, integrationName) pair. -/
theorem pairRows_map_ite (table : IntegrationTable) (S X : String)
    (f : IntegrationConnection → IntegrationConnection)
    (h1 : ∀ r, (f r).sessionId = r.sessionId)
    (h2 : ∀ r, (f r).integrationName = r.integrationName) :
    pairRows
      (table.map (fun r =>
        if r.sessionId == S && r.integrationName == X then f r else r)) S X
      = (pairRows table S X).map f := by
  induction table with
  | nil => rfl
  | cons r rest ih =>
      by_cases h : (r.sessionId == S && r.integrationName == X) = true
      · simp only [pairRows, List.map_cons, List.filter_cons] at *
        rw [if_pos h]
        simp only [h1, h2, h, if_pos, List.map_cons]
        rw [ih]
      · simp only [pairRows, List.map_cons, List.filter_cons] at *
        rw [if_neg h]
        simp only [h, if_neg, Bool.false_eq_true, ite_false]
        rw [ih]

theorem pairRows_updateIntegrationConnection (table : IntegrationTable)
    (S X : String) (u : DbOperations.IntegrationUpdate) (now : Nat) :
    pairRows (DbOperations.updateIntegrationConnection table S X u now).1 S X
      = (pairRows table S X).map (DbOperations.applyIntegrationUpdate u now) := by
  exact pairRows_map_ite table S X _ (fun _ => rfl) (fun _ => rfl)

theorem pairRows_append (t1 t2 : IntegrationTable) (S X : String) :
    pairRows (t1 ++ t2) S X = pairRows t1 S X ++ pairRows t2 S X := by
  simp [pairRows, List.filter_append]

end IntegrationLemmas

/-- C6: starting from a table with no row for the pair (S, X), two consecutive
`connectIntegration` calls leave exactly one row for (S, X), with status
connected and a `lastSyncAt` advanced to the second call's timestamp; the
first call inserts a new connected row and the second call updates the
existing row instead of inserting (the table size does not grow). -/
theorem connectIntegration_idempotent
    (table : IntegrationTable) (S X : String) (m1 m2 : Option String)
    (t1 t2 : Nat) (hnone : pairRows table S X = []) (ht : t1 < t2) :
    ∃ r1 r2 : IntegrationConnection,
      (DbOperations.connectIntegration table S X m1 t1).1 = table ++ [r1] ∧
      pairRows (DbOperations.connectIntegration table S X m1 t1).1 S X = [r1] ∧
      r1.status = "connected" ∧ r1.lastSyncAt = some t1 ∧
      pairRows (DbOperations.connectIntegration
          (DbOperations.connectIntegration table S X m1 t1).1 S X m2 t2).1 S X
        = [r2] ∧
      r2.status = "connected" ∧ r2.lastSyncAt = some t2 ∧
      r1.lastSyncAt.getD 0 < r2.lastSyncAt.getD 0 ∧
      (DbOperations.connectIntegration
          (DbOperations.connectIntegration table S X m1 t1).1 S X m2 t2).1.length
        = (DbOperations.connectIntegration table S X m1 t1).1.length := by
  set r1 : IntegrationConnection :=
    { sessionId := S, integrationName := X, status := "connected",
      metadata := m1, lastSyncAt := some t1, createdAt := t1,
      updatedAt := t1 } with hr1
  set u : DbOperations.IntegrationUpdate :=
    { status := some "connected", lastSyncAt := some (some t2),
      metadata := some m2 } with hu
  have hget1 : DbOperations.getIntegrationConnection table S X = [] := by
    have h0 : DbOperations.getIntegrationConnection table S X
        = (pairRows table S X).take 1 := rfl
    rw [h0, hnone]
    rfl
  have hc1 : DbOperations.connectIntegration table S X m1 t1
      = (table ++ [r1], [r1]) := by
    unfold DbOperations.connectIntegration
    rw [hget1]
    rfl
  have hpr1 : pairRows (table ++ [r1]) S X = [r1] := by
    rw [pairRows_append, hnone]
    simp [pairRows]
  have hget2 : DbOperations.getIntegrationConnection (table ++ [r1]) S X
      = [r1] := by
    have h0 : DbOperations.getIntegrationConnection (table ++ [r1]) S X
        = (pairRows (table ++ [r1]) S X).take 1 := rfl
    rw [h0, hpr1]
    rfl
  have hc2 : DbOperations.connectIntegration (table ++ [r1]) S X m2 t2
      = DbOperations.updateIntegrationConnection (table ++ [r1]) S X u t2 := by
    unfold DbOperations.connectIntegration
    rw [hget2]
  refine ⟨r1, DbOperations.applyIntegrationUpdate u t2 r1, ?_, ?_, rfl, rfl,
    ?_, rfl, rfl, by simpa using ht, ?_⟩
  · rw [hc1]
  · rw [hc1, hpr1]
  · rw [hc1, hc2, pairRows_updateIntegrationConnection, hpr1, List.map_cons,
      List.map_nil]
  · rw [hc1, hc2]
    simp [DbOperations.updateIntegrationConnection]

/-- Witness for `connectIntegration_idempotent` at the empty table, pair
("s1", "shopify"), timestamps 3 and 7. -/
theorem connectIntegration_idempotent_witness :
    ∃ r1 r2 : IntegrationConnection,
      (DbOperations.connectIntegration [] "s1" "shopify" none 3).1 = [] ++ [r1] ∧
      pairRows (DbOperations.connectIntegration [] "s1" "shopify" none 3).1
        "s1" "shopify" = [r1] ∧
      r1.status = "connected" ∧ r1.lastSyncAt = some 3 ∧
      pairRows (DbOperations.connectIntegration
          (DbOperations.connectIntegration [] "s1" "shopify" none 3).1
          "s1" "shopify" none 7).1 "s1" "shopify" = [r2] ∧
      r2.status = "connected" ∧ r2.lastSyncAt = some 7 ∧
      r1.lastSyncAt.getD 0 < r2.lastSyncAt.getD 0 ∧
      (DbOperations.connectIntegration
          (DbOperations.connectIntegration [] "s1" "shopify" none 3).1
          "s1" "shopify" none 7).1.length
        = (DbOperations.connectIntegration [] "s1" "shopify" none 3).1.length :=
  connectIntegration_idempotent [] "s1" "shopify" none none 3 7 (by decide)
    (by decide)

/-- A conditional map whose condition holds nowhere on the list is the
identity. -/
theorem map_ite_id {α : Type} (p : α → Bool) (f : α → α) (l : List α)
    (h : ∀ a ∈ l, p a = false) :
    (l.map fun a => if p a then f a else a) = l := by
  induction l with
  | nil => rfl
  | cons a l ih =>
      have ha := h a (List.mem_cons_self a l)
      simp [ha, ih (fun b hb => h b (List.mem_cons_of_mem a hb))]

/-- C7: disconnecting a pair (S, X) that has no row is a no-op returning the
empty result and creating no row; and after any `disconnectIntegration` call,
every row of the pair has status disconnected. -/
theorem disconnectIntegration_unknown_noop
    (table : IntegrationTable) (S X : String) (now : Nat)
    (hnone : pairRows table S X = []) :
    (DbOperations.disconnectIntegration table S X now).1 = table ∧
    (DbOperations.disconnectIntegration table S X now).2 = [] ∧
    (∀ (table2 : IntegrationTable) (now2 : Nat) r,
      r ∈ pairRows (DbOperations.disconnectIntegration table2 S X now2).1 S X →
      r.status = "disconnected") := by
  refine ⟨?_, ?_, ?_⟩
  · have hall := List.filter_eq_nil_iff.mp hnone
    exact map_ite_id _ _ table
      (fun r hr => by simpa using hall r hr)
  · show ((table.filter _).map _) = []
    rw [show table.filter (fun r =>
        r.sessionId == S && r.integrationName == X) = pairRows table S X from rfl,
      hnone, List.map_nil]
  · intro table2 now2 r hr
    have h0 : pairRows (DbOperations.disconnectIntegration table2 S X now2).1 S X
        = (pairRows table2 S X).map
            (fun r => { r with status := "disconnected", updatedAt := now2 }) :=
      pairRows_map_ite table2 S X _ (fun _ => rfl) (fun _ => rfl)
    rw [h0] at hr
    obtain ⟨r0, _, hr0⟩ := List.mem_map.mp hr
    rw [← hr0]

/-- Witness for `disconnectIntegration_unknown_noop` on a table holding one
row of an unrelated pair. -/
theorem disconnectIntegration_unknown_noop_witness :
    (DbOperations.disconnectIntegration
      [{ sessionId := "s2", integrationName := "posthog", status := "connected",
         metadata := none, lastSyncAt := some 1, createdAt := 1,
         updatedAt := 1 }] "s1" "shopify" 9).1
      = [{ sessionId := "s2", integrationName := "posthog",
           status := "connected", metadata := none, lastSyncAt := some 1,
           createdAt := 1, updatedAt := 1 }] ∧
    (DbOperations.disconnectIntegration
      [{ sessionId := "s2", integrationName := "posthog", status := "connected",
         metadata := none, lastSyncAt := some 1, createdAt := 1,
         updatedAt := 1 }] "s1" "shopify" 9).2 = [] :=
  ⟨(disconnectIntegration_unknown_noop _ "s1" "shopify" 9 (by decide)).1,
   (disconnectIntegration_unknown_noop _ "s1" "shopify" 9 (by decide)).2.1⟩

/-- C10: for the POST and DELETE `/api/integrations/...` handlers, the
unknown-integration-name check runs before the missing-sessionId check: a
request whose trailing path segment names no known integration is answered
404, for every session id value including a missing one, so an unknown name
with a missing session id yields 404 and never 400. -/
theorem integrationsHttp_unknown_name_404
    (integrationName : String) (sessionId : Option String)
    (dbOkPost dbOkDelete : Bool)
    (hunknown : integrationNameUnknown integrationName = true) :
    postIntegrationHandler integrationName sessionId dbOkPost = 404 ∧
    deleteIntegrationHandler integrationName sessionId dbOkDelete = 404 := by
  constructor
  · unfold postIntegrationHandler
    rw [hunknown]
    rfl
  · unfold deleteIntegrationHandler
    rw [hunknown]
    rfl

/-- Witness for `integrationsHttp_unknown_name_404`: unknown name "stripe"
with the session id absent. -/
theorem integrationsHttp_unknown_name_404_witness :
    postIntegrationHandler "stripe" none true = 404 ∧
    deleteIntegrationHandler "stripe" none true = 404 :=
  integrationsHttp_unknown_name_404 "stripe" none true true (by decide)

/-- C9: the static candidate map has entries only for "auto-agent" and
"campaign-agent"; for every other agent type — in particular "router-agent",
the value `RouterAgent.onChatMessage` passes — the candidate lookup yields
`undefined` and iterating it throws, so the tool resolution of every
RouterAgent chat turn takes the error path for all session id and registry
arguments. -/
theorem agentToolMappings_router_agent_missing :
    (∀ agentType : String, agentType ≠ "auto-agent" →
      agentType ≠ "campaign-agent" → agentToolMappings agentType = none) ∧
    agentToolMappings "router-agent" = none ∧
    (∀ (sessionId : Option String) (dbOps : Option Registry),
      routerAgentToolResolution sessionId dbOps = .error ()) := by
  have hlookup : ∀ agentType : String, agentType ≠ "auto-agent" →
      agentType ≠ "campaign-agent" → agentToolMappings agentType = none := by
    intro agentType h1 h2
    unfold agentToolMappings
    rw [List.lookup_cons, List.lookup_cons]
    rw [show (agentType == "auto-agent") = false by simpa using h1,
      show (agentType == "campaign-agent") = false by simpa using h2]
    rfl
  refine ⟨hlookup, hlookup "router-agent" (by decide) (by decide), ?_⟩
  intro sessionId dbOps
  unfold routerAgentToolResolution getToolsForAgent
  rw [hlookup "router-agent" (by decide) (by decide)]

/-- Witness for `agentToolMappings_router_agent_missing` at agent type
"session-agent" and the concrete RouterAgent call site arguments. -/
theorem agentToolMappings_router_agent_missing_witness :
    agentToolMappings "session-agent" = none ∧
    routerAgentToolResolution (some "router-agent-persistent") none
      = .error () :=
  ⟨agentToolMappings_router_agent_missing.1 "session-agent" (by decide)
     (by decide),
   agentToolMappings_router_agent_missing.2.2 (some "router-agent-persistent")
     none⟩

/-- Folding `saveMessage` over a list appends one row per element. -/
theorem foldl_saveMessage_eq_append {β : Type} (l : List β)
    (f : β → MessageRow) (store : MessageTable) :
    l.foldl (fun acc p => DbOperations.saveMessage acc (f p)) store
      = store ++ l.map f := by
  induction l generalizing store with
  | nil => simp
  | cons a l ih =>
      simp only [List.foldl_cons, List.map_cons]
      rw [show DbOperations.saveMessage store (f a) = store ++ [f a] from rfl]
      rw [ih (store ++ [f a]), List.append_assoc]
      rfl

/-- C8: on close with a storage handle and session id present, every
in-memory transcript message is written to storage — one row per transcript
entry, with no transcript-length threshold — and the storage connection is
released exactly once: the close clears the connection handle, so a second
close performs zero releases. -/
theorem routerAgent_onClose_flush_and_single_release
    (sessionId : String) (msgs msgs2 : List ChatMessage)
    (store store2 : MessageTable) (rowIds rowIds2 : Nat → String)
    (meta meta2 : Option String) (now now2 : Nat)
    (hsid : sessionId.isEmpty = false) :
    (RouterAgent.onClose true sessionId msgs store (some ⟨true⟩) rowIds meta
        now).1
      = store ++ msgs.enum.map (fun p =>
          { id := rowIds p.1, agentType := "router-agent",
            sessionId := sessionId, role := p.2.role, content := p.2.content,
            metadata := meta, createdAt := now }) ∧
    (RouterAgent.onClose true sessionId msgs store (some ⟨true⟩) rowIds meta
        now).1.length = store.length + msgs.length ∧
    (RouterAgent.onClose true sessionId msgs store (some ⟨true⟩) rowIds meta
        now).2.2 = 1 ∧
    (RouterAgent.onClose true sessionId msgs store (some ⟨true⟩) rowIds meta
        now).2.1 = some ⟨false⟩ ∧
    (RouterAgent.onClose true sessionId msgs2 store2 (some ⟨false⟩) rowIds2
        meta2 now2).2.2 = 0 := by
  have hstore : (RouterAgent.onClose true sessionId msgs store (some ⟨true⟩)
      rowIds meta now).1
      = store ++ msgs.enum.map (fun p =>
          { id := rowIds p.1, agentType := "router-agent",
            sessionId := sessionId, role := p.2.role, content := p.2.content,
            metadata := meta, createdAt := now }) := by
    unfold RouterAgent.onClose
    rw [hsid]
    cases msgs with
    | nil => simp
    | cons m rest =>
        simp only [Bool.not_false, Bool.and_true, Bool.true_and,
          List.length_cons]
        rw [if_pos (by simp)]
        rw [foldl_saveMessage_eq_append]
  refine ⟨hstore, ?_, ?_, ?_, ?_⟩
  · rw [hstore]
    simp [List.enum]
  · unfold RouterAgent.onClose DatabaseManager.close
    simp
  · unfold RouterAgent.onClose DatabaseManager.close
    simp
  · unfold RouterAgent.onClose DatabaseManager.close
    simp

/-- Witness for `routerAgent_onClose_flush_and_single_release` at a two-entry
transcript that is far below the write threshold. -/
theorem routerAgent_onClose_flush_and_single_release_witness :
    (RouterAgent.onClose true "router-agent-persistent"
        [⟨"user", "hi", "a"⟩, ⟨"assistant", "hello", "b"⟩] []
        (some ⟨true⟩) (fun n => toString n) none 4).1
      = [] ++ ([⟨"user", "hi", "a"⟩,
          (⟨"assistant", "hello", "b"⟩ : ChatMessage)].enum.map (fun p =>
          { id := toString p.1, agentType := "router-agent",
            sessionId := "router-agent-persistent", role := p.2.role,
            content := p.2.content, metadata := none, createdAt := 4 })) ∧
    (RouterAgent.onClose true "router-agent-persistent"
        [⟨"user", "hi", "a"⟩, ⟨"assistant", "hello", "b"⟩] []
        (some ⟨true⟩) (fun n => toString n) none 4).1.length
      = List.length ([] : MessageTable) + 2 ∧
    (RouterAgent.onClose true "router-agent-persistent"
        [⟨"user", "hi", "a"⟩, ⟨"assistant", "hello", "b"⟩] []
        (some ⟨true⟩) (fun n => toString n) none 4).2.2 = 1 ∧
    (RouterAgent.onClose true "router-agent-persistent"
        [⟨"user", "hi", "a"⟩, ⟨"assistant", "hello", "b"⟩] []
        (some ⟨true⟩) (fun n => toString n) none 4).2.1 = some ⟨false⟩ ∧
    (RouterAgent.onClose true "router-agent-persistent" []
        [] (some ⟨false⟩) (fun n => toString n) none 5).2.2 = 0 :=
  routerAgent_onClose_flush_and_single_release "router-agent-persistent"
    [⟨"user", "hi", "a"⟩, ⟨"assistant", "hello", "b"⟩] [] [] []
    (fun n => toString n) (fun n => toString n) none none 4 5 (by decide)

/-- C2: during a live chat turn, each of the three gated saves — the inbound
user message, the outbound assistant reply, and the system-role error record —
writes zero rows when the in-memory transcript length is at most 10 (for every
combination of handle, session id and message roles), and writes exactly one
row when the transcript length strictly exceeds 10 and the gate's remaining
conditions hold (storage handle and session id present; for the inbound save,
the last transcript entry has role user). -/
theorem chatTurn_threshold_gate
    (hasDbOps : Bool) (sessionId : String) (msgs : List ChatMessage)
    (store : MessageTable) (rowId : String) (meta : Option String) (now : Nat)
    (replyText errText : String) :
    (msgs.length ≤ 10 →
      RouterAgent.saveUserMessageOnTurn hasDbOps sessionId msgs store rowId
        meta now = store ∧
      RouterAgent.saveAssistantReplyOnFinish hasDbOps sessionId msgs store
        replyText rowId meta now = store ∧
      RouterAgent.saveErrorRecordOnCatch hasDbOps sessionId msgs store errText
        rowId meta now = store) ∧
    (msgs.length > 10 → hasDbOps = true → sessionId.isEmpty = false →
      (∀ u, msgs.getLast? = some u → u.role = "user" →
        RouterAgent.saveUserMessageOnTurn hasDbOps sessionId msgs store rowId
          meta now
          = store ++
            [{ id := rowId, agentType := "router-agent",
               sessionId := sessionId, role := "user", content := u.content,
               metadata := meta, createdAt := now }]) ∧
      RouterAgent.saveAssistantReplyOnFinish hasDbOps sessionId msgs store
        replyText rowId meta now
        = store ++
          [{ id := rowId, agentType := "router-agent",
             sessionId := sessionId, role := "assistant", content := replyText,
             metadata := meta, createdAt := now }] ∧
      RouterAgent.saveErrorRecordOnCatch hasDbOps sessionId msgs store errText
        rowId meta now
        = store ++
          [{ id := rowId, agentType := "router-agent",
             sessionId := sessionId, role := "system",
             content := "Error processing message: " ++ errText,
             metadata := meta, createdAt := now }]) := by
  constructor
  · intro hle
    have hdec : decide (msgs.length > 10) = false := by
      simp only [decide_eq_false_iff_not, not_lt]
      exact hle
    refine ⟨?_, ?_, ?_⟩
    · unfold RouterAgent.saveUserMessageOnTurn
      cases msgs.getLast? with
      | none => rfl
      | some u => rw [hdec]; simp
    · unfold RouterAgent.saveAssistantReplyOnFinish
      rw [hdec]; simp
    · unfold RouterAgent.saveErrorRecordOnCatch
      rw [hdec]; simp
  · intro hgt hdb hsid
    have hdec : decide (msgs.length > 10) = true := by
      simpa using hgt
    refine ⟨?_, ?_, ?_⟩
    · intro u hu hrole
      unfold RouterAgent.saveUserMessageOnTurn
      rw [hu]
      simp [hdb, hsid, hdec, hrole, DbOperations.saveMessage]
    · unfold RouterAgent.saveAssistantReplyOnFinish
      rw [hdb, hsid, hdec]
      rfl
    · unfold RouterAgent.saveErrorRecordOnCatch
      rw [hdb, hsid, hdec]
      rfl

/-- Witness for `chatTurn_threshold_gate`: an 11-entry transcript whose last
entry is a user message, with storage and session id present. -/
theorem chatTurn_threshold_gate_witness :
    RouterAgent.saveUserMessageOnTurn true "router-agent-persistent"
      (List.replicate 10 ⟨"assistant", "x", "i"⟩ ++ [⟨"user", "hi", "j"⟩]) []
      "r1" none 6
      = [] ++
        [{ id := "r1", agentType := "router-agent",
           sessionId := "router-agent-persistent", role := "user",
           content := "hi", metadata := none, createdAt := 6 }] :=
  ((chatTurn_threshold_gate true "router-agent-persistent"
      (List.replicate 10 ⟨"assistant", "x", "i"⟩ ++ [⟨"user", "hi", "j"⟩]) []
      "r1" none 6 "" "").2 (by decide) rfl (by decide)).1
    ⟨"user", "hi", "j"⟩ (by decide) rfl

section RetryLemmas

/-- At attempt 2 the loop is terminal: a success returns it, any failure ends
with the sentinel — the condition `attempt < maxRetries` rules out a retry. -/
theorem createSessionLoop_two {α : Type} (oracle : Nat → Except DbError α) :
    DbOperations.createSessionLoop oracle 2
      = match oracle 2 with
        | .ok a => ⟨some a, 1, []⟩
        | .error _ => ⟨none, 1, []⟩ := by
  rw [DbOperations.createSessionLoop]
  rw [dif_neg (by simp [DbOperations.maxRetries])]
  cases h2 : oracle 2 with
  | ok a => rfl
  | error e => simp [DbOperations.maxRetries]

/-- A transient failure at attempt 1 recurses into attempt 2 after a
100 ms delay. -/
theorem createSessionLoop_one_transient {α : Type}
    (oracle : Nat → Except DbError α) (e : DbError)
    (h1 : oracle 1 = .error e) (he : isConnectionEnded e = true) :
    DbOperations.createSessionLoop oracle 1
      = ⟨(DbOperations.createSessionLoop oracle 2).result,
         (DbOperations.createSessionLoop oracle 2).attemptsMade + 1,
         100 :: (DbOperations.createSessionLoop oracle 2).delays⟩ := by
  rw [DbOperations.createSessionLoop]
  rw [dif_neg (by simp [DbOperations.maxRetries]), h1]
  simp only [he, Bool.and_true]
  rw [if_pos (by simp [DbOperations.maxRetries])]

/-- A non-transient failure at attempt 1 is never retried: immediate
sentinel. -/
theorem createSessionLoop_one_permanent {α : Type}
    (oracle : Nat → Except DbError α) (e : DbError)
    (h1 : oracle 1 = .error e) (he : isConnectionEnded e = false) :
    DbOperations.createSessionLoop oracle 1 = ⟨none, 1, []⟩ := by
  rw [DbOperations.createSessionLoop]
  rw [dif_neg (by simp [DbOperations.maxRetries]), h1]
  simp [he]

/-- Terminal attempt 2 of the `getAgentMessages` loop: success returns, any
failure rethrows. -/
theorem getAgentMessagesLoop_two {α : Type}
    (oracle : Nat → Except DbError (List α)) :
    DbOperations.getAgentMessagesLoop oracle 2
      = match oracle 2 with
        | .ok v => ⟨.ok v, 1, []⟩
        | .error e => ⟨.error e, 1, []⟩ := by
  rw [DbOperations.getAgentMessagesLoop]
  rw [dif_neg (by simp [DbOperations.maxRetries])]
  cases h2 : oracle 2 with
  | ok v => rfl
  | error e => simp [DbOperations.maxRetries]

/-- A transient failure at attempt 1 of the `getAgentMessages` loop recurses
into attempt 2 after a 100 ms delay. -/
theorem getAgentMessagesLoop_one_transient {α : Type}
    (oracle : Nat → Except DbError (List α)) (e : DbError)
    (h1 : oracle 1 = .error e) (he : isConnectionEnded e = true) :
    DbOperations.getAgentMessagesLoop oracle 1
      = ⟨(DbOperations.getAgentMessagesLoop oracle 2).result,
         (DbOperations.getAgentMessagesLoop oracle 2).attemptsMade + 1,
         100 :: (DbOperations.getAgentMessagesLoop oracle 2).delays⟩ := by
  rw [DbOperations.getAgentMessagesLoop]
  rw [dif_neg (by simp [DbOperations.maxRetries]), h1]
  simp only [he, Bool.and_true]
  rw [if_pos (by simp [DbOperations.maxRetries])]

/-- A non-transient failure at attempt 1 of the `getAgentMessages` loop is
rethrown immediately. -/
theorem getAgentMessagesLoop_one_permanent {α : Type}
    (oracle : Nat → Except DbError (List α)) (e : DbError)
    (h1 : oracle 1 = .error e) (he : isConnectionEnded e = false) :
    DbOperations.getAgentMessagesLoop oracle 1 = ⟨.error e, 1, []⟩ := by
  rw [DbOperations.getAgentMessagesLoop]
  rw [dif_neg (by simp [DbOperations.maxRetries]), h1]
  simp [he]

end RetryLemmas

/-- C3: for the retried storage calls, a transient "connection ended" failure
on the first attempt causes exactly one retry after a 100 ms (= 100 × attempt
number) delay and there is never a third attempt; after two failing attempts
the single-record `createSession` returns the null sentinel without throwing,
while the list read `getAgentMessages` rethrows the final error; a
non-transient first failure is never retried and takes the same terminal
behavior immediately. -/
theorem persistenceRetryPolicy {α β : Type} (oracle : Nat → Except DbError α)
    (oracleL : Nat → Except DbError (List β)) :
    (DbOperations.createSession oracle).attemptsMade ≤ 2 ∧
    (DbOperations.getAgentMessagesRun oracleL).attemptsMade ≤ 2 ∧
    (∀ e1, oracle 1 = .error e1 → isConnectionEnded e1 = true →
      (DbOperations.createSession oracle).attemptsMade = 2 ∧
      (DbOperations.createSession oracle).delays = [100]) ∧
    (∀ e1, oracleL 1 = .error e1 → isConnectionEnded e1 = true →
      (DbOperations.getAgentMessagesRun oracleL).attemptsMade = 2 ∧
      (DbOperations.getAgentMessagesRun oracleL).delays = [100]) ∧
    (∀ e1 e2, oracle 1 = .error e1 → isConnectionEnded e1 = true →
      oracle 2 = .error e2 →
      (DbOperations.createSession oracle).result = none) ∧
    (∀ e1 e2, oracleL 1 = .error e1 → isConnectionEnded e1 = true →
      oracleL 2 = .error e2 →
      (DbOperations.getAgentMessagesRun oracleL).result = .error e2) ∧
    (∀ e1, oracle 1 = .error e1 → isConnectionEnded e1 = false →
      DbOperations.createSession oracle = ⟨none, 1, []⟩) ∧
    (∀ e1, oracleL 1 = .error e1 → isConnectionEnded e1 = false →
      DbOperations.getAgentMessagesRun oracleL = ⟨.error e1, 1, []⟩) := by
  have hatt2 : (DbOperations.createSessionLoop oracle 2).attemptsMade = 1 := by
    rw [createSessionLoop_two]
    cases oracle 2 <;> rfl
  have hatt2L :
      (DbOperations.getAgentMessagesLoop oracleL 2).attemptsMade = 1 := by
    rw [getAgentMessagesLoop_two]
    cases oracleL 2 <;> rfl
  have hdel2 : (DbOperations.createSessionLoop oracle 2).delays = [] := by
    rw [createSessionLoop_two]
    cases oracle 2 <;> rfl
  have hdel2L : (DbOperations.getAgentMessagesLoop oracleL 2).delays = [] := by
    rw [getAgentMessagesLoop_two]
    cases oracleL 2 <;> rfl
  refine ⟨?_, ?_, ?_, ?_, ?_, ?_, ?_, ?_⟩
  · show (DbOperations.createSessionLoop oracle 1).attemptsMade ≤ 2
    cases h1 : oracle 1 with
    | ok a =>
        rw [DbOperations.createSessionLoop,
          dif_neg (by simp [DbOperations.maxRetries]), h1]
        simp
    | error e =>
        cases he : isConnectionEnded e with
        | true =>
            rw [createSessionLoop_one_transient oracle e h1 he]
            simp [hatt2]
        | false =>
            rw [createSessionLoop_one_permanent oracle e h1 he]
            simp
  · show (DbOperations.getAgentMessagesLoop oracleL 1).attemptsMade ≤ 2
    cases h1 : oracleL 1 with
    | ok v =>
        rw [DbOperations.getAgentMessagesLoop,
          dif_neg (by simp [DbOperations.maxRetries]), h1]
        simp
    | error e =>
        cases he : isConnectionEnded e with
        | true =>
            rw [getAgentMessagesLoop_one_transient oracleL e h1 he]
            simp [hatt2L]
        | false =>
            rw [getAgentMessagesLoop_one_permanent oracleL e h1 he]
            simp
  · intro e1 h1 he
    show (DbOperations.createSessionLoop oracle 1).attemptsMade = 2 ∧
      (DbOperations.createSessionLoop oracle 1).delays = [100]
    rw [createSessionLoop_one_transient oracle e1 h1 he]
    exact ⟨by simp [hatt2], by simp [hdel2]⟩
  · intro e1 h1 he
    show (DbOperations.getAgentMessagesLoop oracleL 1).attemptsMade = 2 ∧
      (DbOperations.getAgentMessagesLoop oracleL 1).delays = [100]
    rw [getAgentMessagesLoop_one_transient oracleL e1 h1 he]
    exact ⟨by simp [hatt2L], by simp [hdel2L]⟩
  · intro e1 e2 h1 he h2
    show (DbOperations.createSessionLoop oracle 1).result = none
    rw [createSessionLoop_one_transient oracle e1 h1 he]
    show (DbOperations.createSessionLoop oracle 2).result = none
    rw [createSessionLoop_two, h2]
  · intro e1 e2 h1 he h2
    show (DbOperations.getAgentMessagesLoop oracleL 1).result = .error e2
    rw [getAgentMessagesLoop_one_transient oracleL e1 h1 he]
    show (DbOperations.getAgentMessagesLoop oracleL 2).result = .error e2
    rw [getAgentMessagesLoop_two, h2]
  · intro e1 h1 he
    exact createSessionLoop_one_permanent oracle e1 h1 he
  · intro e1 h1 he
    exact getAgentMessagesLoop_one_permanent oracleL e1 h1 he

/-- Witness for `persistenceRetryPolicy`: oracles whose every attempt fails
with the transient "connection ended" error class. -/
theorem persistenceRetryPolicy_witness :
    (DbOperations.createSession
      (fun _ => (.error ⟨some "CONNECTION_ENDED", none⟩ :
        Except DbError Nat))).attemptsMade = 2 ∧
    (DbOperations.createSession
      (fun _ => (.error ⟨some "CONNECTION_ENDED", none⟩ :
        Except DbError Nat))).delays = [100] ∧
    (DbOperations.createSession
      (fun _ => (.error ⟨some "CONNECTION_ENDED", none⟩ :
        Except DbError Nat))).result = none ∧
    (DbOperations.getAgentMessagesRun
      (fun _ => (.error ⟨some "CONNECTION_ENDED", none⟩ :
        Except DbError (List Nat)))).result
      = .error ⟨some "CONNECTION_ENDED", none⟩ :=
  ⟨((persistenceRetryPolicy
      (fun _ => (.error ⟨some "CONNECTION_ENDED", none⟩ : Except DbError Nat))
      (fun _ => (.error ⟨some "CONNECTION_ENDED", none⟩ :
        Except DbError (List Nat)))).2.2.1
      ⟨some "CONNECTION_ENDED", none⟩ rfl (by decide)).1,
   ((persistenceRetryPolicy
      (fun _ => (.error ⟨some "CONNECTION_ENDED", none⟩ : Except DbError Nat))
      (fun _ => (.error ⟨some "CONNECTION_ENDED", none⟩ :
        Except DbError (List Nat)))).2.2.1
      ⟨some "CONNECTION_ENDED", none⟩ rfl (by decide)).2,
   (persistenceRetryPolicy
      (fun _ => (.error ⟨some "CONNECTION_ENDED", none⟩ : Except DbError Nat))
      (fun _ => (.error ⟨some "CONNECTION_ENDED", none⟩ :
        Except DbError (List Nat)))).2.2.2.2.1
      ⟨some "CONNECTION_ENDED", none⟩ ⟨some "CONNECTION_ENDED", none⟩ rfl
      (by decide) rfl,
   (persistenceRetryPolicy
      (fun _ => (.error ⟨some "CONNECTION_ENDED", none⟩ : Except DbError Nat))
      (fun _ => (.error ⟨some "CONNECTION_ENDED", none⟩ :
        Except DbError (List Nat)))).2.2.2.2.2.1
      ⟨some "CONNECTION_ENDED", none⟩ ⟨some "CONNECTION_ENDED", none⟩ rfl
      (by decide) rfl⟩

/-- Restore with a storage handle, session id and a non-empty fetched history
replaces the transcript wholesale with the fetched rows in chronological
order. -/
theorem restoreConversationHistory_ok_nonempty (sessionId : String)
    (messages : List ChatMessage) (savedMessages : List MessageRow)
    (hsid : sessionId.isEmpty = false) (hne : savedMessages ≠ []) :
    RouterAgent.restoreConversationHistory true sessionId (.ok savedMessages)
      messages = (savedMessages.reverse.map toChatMessage, false) := by
  unfold RouterAgent.restoreConversationHistory
  rw [hsid]
  rw [if_neg (by simp)]
  show (if savedMessages.length > 0 then
      (List.map toChatMessage savedMessages.reverse, false)
    else (messages, false)) = _
  rw [if_pos (List.length_pos.mpr hne)]

/-- Restore with a failing fetch keeps the transcript unchanged and logs. -/
theorem restoreConversationHistory_error (sessionId : String)
    (messages : List ChatMessage) (e : DbError)
    (hsid : sessionId.isEmpty = false) :
    RouterAgent.restoreConversationHistory true sessionId (.error e) messages
      = (messages, true) := by
  unfold RouterAgent.restoreConversationHistory
  rw [hsid]
  rfl

/-- Restore with an empty fetched history keeps the transcript unchanged. -/
theorem restoreConversationHistory_ok_empty (sessionId : String)
    (messages : List ChatMessage) (hsid : sessionId.isEmpty = false) :
    RouterAgent.restoreConversationHistory true sessionId (.ok []) messages
      = (messages, false) := by
  unfold RouterAgent.restoreConversationHistory
  rw [hsid]
  rfl

/-- C4 counterexample: the claim asserts that when the history fetch fails the
controller continues with an EMPTY transcript.  At the concrete input below —
database and session id present, a fetch that fails, and an in-memory
transcript holding one message — the restore keeps the existing one-message
transcript, which is not empty. -/
theorem restore_failure_transcript_not_emptied :
    (RouterAgent.restoreConversationHistory true "router-agent-persistent"
        (.error ⟨none, none⟩) [⟨"user", "hi", "m1"⟩]).1
      = [⟨"user", "hi", "m1"⟩] ∧
    (RouterAgent.restoreConversationHistory true "router-agent-persistent"
        (.error ⟨none, none⟩) [⟨"user", "hi", "m1"⟩]).1 ≠ ([] : List ChatMessage) := by
  constructor
  · rfl
  · decide

/-- C4 (amended): with a storage handle and session id present, a fetch that
succeeds with at least one message replaces the in-memory transcript wholesale
(not merged with live messages); a fetch that fails leaves the transcript it
already had unchanged and logs the condition; a fetch that succeeds empty also
leaves the transcript unchanged. -/
theorem restore_replaces_wholesale_or_keeps
    (sessionId : String) (messages : List ChatMessage)
    (hsid : sessionId.isEmpty = false) :
    (∀ savedMessages : List MessageRow, savedMessages ≠ [] →
      RouterAgent.restoreConversationHistory true sessionId
        (.ok savedMessages) messages
        = (savedMessages.reverse.map toChatMessage, false)) ∧
    (∀ e : DbError,
      RouterAgent.restoreConversationHistory true sessionId (.error e) messages
        = (messages, true)) ∧
    (RouterAgent.restoreConversationHistory true sessionId (.ok []) messages
        = (messages, false)) :=
  ⟨fun savedMessages hne =>
     restoreConversationHistory_ok_nonempty sessionId messages savedMessages
       hsid hne,
   fun e => restoreConversationHistory_error sessionId messages e hsid,
   restoreConversationHistory_ok_empty sessionId messages hsid⟩

/-- Witness for `restore_replaces_wholesale_or_keeps`: one fetched row
replacing a one-message live transcript. -/
theorem restore_replaces_wholesale_or_keeps_witness :
    RouterAgent.restoreConversationHistory true "router-agent-persistent"
      (.ok [{ id := "m0", agentType := "router-agent",
              sessionId := "router-agent-persistent", role := "assistant",
              content := "earlier", metadata := none, createdAt := 1 }])
      [⟨"user", "live", "m9"⟩]
      = ([⟨"assistant", "earlier", "m0"⟩], false) :=
  (restore_replaces_wholesale_or_keeps "router-agent-persistent"
      [⟨"user", "live", "m9"⟩] (by decide)).1
    [{ id := "m0", agentType := "router-agent",
       sessionId := "router-agent-persistent", role := "assistant",
       content := "earlier", metadata := none, createdAt := 1 }]
    (by decide)

section OrderingLemmas

/-- Inserting an element that the order relation places after every element of
the list lands it at the end. -/
theorem orderedInsert_eq_append {α : Type} (r : α → α → Prop) [DecidableRel r]
    (a : α) (l : List α) (h : ∀ x ∈ l, ¬r a x) :
    l.orderedInsert r a = l ++ [a] := by
  induction l with
  | nil => rfl
  | cons b l ih =>
      rw [List.orderedInsert,
        if_neg (h b (List.mem_cons_self b l)),
        ih (fun x hx => h x (List.mem_cons_of_mem b hx))]
      rfl

/-- Sorting a strictly-chronological message list by recency descending
reverses it: each next-older message is inserted behind all newer ones. -/
theorem insertionSort_recencyDesc_eq_reverse (l : List MessageRow)
    (h : l.Pairwise (fun a b => a.createdAt < b.createdAt)) :
    List.insertionSort DbOperations.recencyDesc l = l.reverse := by
  induction l with
  | nil => rfl
  | cons a l ih =>
      rw [List.insertionSort]
      rw [List.pairwise_cons] at h
      rw [ih h.2]
      rw [orderedInsert_eq_append _ a l.reverse (fun x hx => by
        have hax := h.1 x (List.mem_reverse.mp hx)
        show ¬x.createdAt ≤ a.createdAt
        omega)]
      rw [List.reverse_cons]

end OrderingLemmas

/-- C5: for a message store whose rows for one agent role form a strictly
chronological sequence (insertion order, strictly increasing `createdAt`),
retrieving with `limit` at least the sequence length and reversing the
recency-descending result recovers exactly the persisted sequence in original
chronological order; restoring a non-empty fetched history yields precisely
those messages, in order, as the new transcript. -/
theorem persisted_messages_round_trip (store : MessageTable)
    (agentType : String) (limit : Nat) (msgs : List MessageRow)
    (hfilter : store.filter (fun m => m.agentType == agentType) = msgs)
    (hchron : msgs.Pairwise (fun a b => a.createdAt < b.createdAt))
    (hlim : msgs.length ≤ limit) :
    (DbOperations.agentMessagesQuery store agentType limit).reverse = msgs ∧
    (∀ (sessionId : String) (live : List ChatMessage),
      sessionId.isEmpty = false → msgs ≠ [] →
      (RouterAgent.restoreConversationHistory true sessionId
          (.ok (DbOperations.agentMessagesQuery store agentType limit))
          live).1
        = msgs.map toChatMessage) := by
  have hquery : DbOperations.agentMessagesQuery store agentType limit
      = msgs.reverse := by
    unfold DbOperations.agentMessagesQuery
    rw [hfilter, insertionSort_recencyDesc_eq_reverse msgs hchron,
      List.take_of_length_le (by simpa using hlim)]
  constructor
  · rw [hquery, List.reverse_reverse]
  · intro sessionId live hsid hne
    rw [hquery]
    have hrev : msgs.reverse ≠ [] := by simpa using hne
    rw [restoreConversationHistory_ok_nonempty sessionId live msgs.reverse
      hsid hrev]
    rw [List.reverse_reverse]

/-- Witness for `persisted_messages_round_trip`: three chronologically
persisted router-agent rows restored with limit 50. -/
theorem persisted_messages_round_trip_witness :
    (DbOperations.agentMessagesQuery
        [{ id := "a", agentType := "router-agent", sessionId := "s",
           role := "user", content := "one", metadata := none, createdAt := 1 },
         { id := "b", agentType := "router-agent", sessionId := "s",
           role := "assistant", content := "two", metadata := none,
           createdAt := 2 },
         { id := "c", agentType := "router-agent", sessionId := "s",
           role := "user", content := "three", metadata := none,
           createdAt := 3 }] "router-agent" 50).reverse
      = [{ id := "a", agentType := "router-agent", sessionId := "s",
           role := "user", content := "one", metadata := none, createdAt := 1 },
         { id := "b", agentType := "router-agent", sessionId := "s",
           role := "assistant", content := "two", metadata := none,
           createdAt := 2 },
         { id := "c", agentType := "router-agent", sessionId := "s",
           role := "user", content := "three", metadata := none,
           createdAt := 3 }] ∧
    (RouterAgent.restoreConversationHistory true "router-agent-persistent"
        (.ok (DbOperations.agentMessagesQuery
          [{ id := "a", agentType := "router-agent", sessionId := "s",
             role := "user", content := "one", metadata := none,
             createdAt := 1 },
           { id := "b", agentType := "router-agent", sessionId := "s",
             role := "assistant", content := "two", metadata := none,
             createdAt := 2 },
           { id := "c", agentType := "router-agent", sessionId := "s",
             role := "user", content := "three", metadata := none,
             createdAt := 3 }] "router-agent" 50)) []).1
      = [⟨"user", "one", "a"⟩, ⟨"assistant", "two", "b"⟩,
         ⟨"user", "three", "c"⟩] :=
  ⟨(persisted_messages_round_trip _ "router-agent" 50 _ (by decide) (by decide)
      (by decide)).1,
   by
    rw [(persisted_messages_round_trip _ "router-agent" 50
        [{ id := "a", agentType := "router-agent", sessionId := "s",
           role := "user", content := "one", metadata := none, createdAt := 1 },
         { id := "b", agentType := "router-agent", sessionId := "s",
           role := "assistant", content := "two", metadata := none,
           createdAt := 2 },
         { id := "c", agentType := "router-agent", sessionId := "s",
           role := "user", content := "three", metadata := none,
           createdAt := 3 }] (by decide) (by decide) (by decide)).2
      "router-agent-persistent" [] (by decide) (by decide)]
    rfl⟩

/-- The accumulator loop of `getToolsForAgent` merges exactly the bundles of
the candidates passing the connectivity test, in order. -/
theorem foldl_bundles_eq_filter_flatten (names : List String)
    (p : String → Bool) (acc : List String) :
    names.foldl
      (fun agentTools integrationName =>
        if p integrationName then
          agentTools ++ getToolsByIntegration integrationName
        else agentTools) acc
      = acc ++ ((names.filter p).map getToolsByIntegration).flatten := by
  induction names generalizing acc with
  | nil => simp
  | cons n names ih =>
      cases hp : p n with
      | true =>
          simp only [List.foldl_cons, hp, if_pos, List.filter_cons, ite_true,
            List.map_cons, List.flatten_cons]
          rw [ih (acc ++ getToolsByIntegration n), List.append_assoc]
      | false =>
          simp only [List.foldl_cons, hp, Bool.false_eq_true, if_neg,
            List.filter_cons, ite_false, List.map_cons]
          rw [ih acc]

/-- C1: for an agent role present in the static candidate map, the resolver's
result merges exactly the tool bundles of the candidates whose connectivity
test passes; and that test reports an integration connected precisely when
the registry holds a connected row for it in the session — except that a
registry query that throws, a missing (or empty) session id, or a missing
registry handle each make the resolver default to treating the integration as
connected. -/
theorem toolResolver_includes_iff_connected
    (agentType : String) (cands : List String) (sessionId : Option String)
    (dbOps : Option Registry)
    (hmap : agentToolMappings agentType = some cands) :
    getToolsForAgent agentType sessionId dbOps
      = .ok (((cands.filter
          (integrationIsConnected sessionId dbOps)).map
            getToolsByIntegration).flatten) ∧
    (∀ (sid : String) (ops : Registry) (rows : List IntegrationConnection)
        (n : String),
      sessionId = some sid → truthySessionId sessionId = true →
      dbOps = some ops → ops sid = .ok rows →
      (integrationIsConnected sessionId dbOps n = true ↔
        ∃ conn ∈ rows,
          conn.integrationName = n ∧ conn.status = "connected")) ∧
    (∀ (sid : String) (ops : Registry) (e : DbError) (n : String),
      sessionId = some sid → dbOps = some ops → ops sid = .error e →
      integrationIsConnected sessionId dbOps n = true) ∧
    (∀ n : String, truthySessionId sessionId = false ∨ dbOps = none →
      integrationIsConnected sessionId dbOps n = true) := by
  refine ⟨?_, ?_, ?_, ?_⟩
  · unfold getToolsForAgent
    rw [hmap]
    have hfold := foldl_bundles_eq_filter_flatten cands
      (integrationIsConnected sessionId dbOps) []
    rw [List.nil_append] at hfold
    exact congrArg Except.ok hfold
  · intro sid ops rows n hsid htruthy hops hquery
    subst hsid
    subst hops
    simp only [integrationIsConnected, htruthy, hquery, List.any_eq_true,
      Bool.and_eq_true, beq_iff_eq]
  · intro sid ops e n hsid hops hquery
    subst hsid
    subst hops
    cases htr : truthySessionId (some sid) with
    | true => simp only [integrationIsConnected, htr, hquery]
    | false => simp only [integrationIsConnected, htr]
  · intro n hdeg
    cases hdb : dbOps with
    | none => simp [integrationIsConnected]
    | some ops =>
        rcases hdeg with htr | hnone
        · cases hs : sessionId with
          | none => simp [integrationIsConnected]
          | some sid =>
              rw [hs] at htr
              simp [integrationIsConnected, htr]
        · rw [hnone] at hdb
          cases hdb

/-- Witness for `toolResolver_includes_iff_connected`: campaign-agent with a
registry holding a connected google-ads row and a disconnected shopify row and
no posthog row — the result is exactly the google-ads bundle (the five
google-ads tools carrying a `name` property). -/
theorem toolResolver_includes_iff_connected_witness :
    getToolsForAgent "campaign-agent" (some "s1")
      (some (fun _ =>
        .ok [{ sessionId := "s1", integrationName := "google-ads",
               status := "connected", metadata := none, lastSyncAt := some 1,
               createdAt := 1, updatedAt := 1 },
             { sessionId := "s1", integrationName := "shopify",
               status := "disconnected", metadata := none,
               lastSyncAt := some 1, createdAt := 1, updatedAt := 1 }]))
      = .ok ["getGoogleAdsPaymentInfo", "getGoogleAdsCampaigns",
             "getGoogleAdsKeywords", "getGoogleAdsAudienceInsights",
             "getGoogleAdsCompetitorAnalysis"] := by
  rw [(toolResolver_includes_iff_connected "campaign-agent"
      ["google-ads", "shopify", "posthog"] (some "s1")
      (some (fun _ =>
        .ok [{ sessionId := "s1", integrationName := "google-ads",
               status := "connected", metadata := none, lastSyncAt := some 1,
               createdAt := 1, updatedAt := 1 },
             { sessionId := "s1", integrationName := "shopify",
               status := "disconnected", metadata := none,
               lastSyncAt := some 1, createdAt := 1, updatedAt := 1 }]))
      rfl).1]
  rfl
